import Mathlib

/-!
Shallow embedding of the puzzle-generation pipeline of the
AdditiveManufacturing repository (`src/backend.py`, with the variant
`src/backend2.py`).

Modelling conventions:
* Machine floats are modelled as exact rationals (`ℚ`); numeric literals of
  the source (`0.2`, `0.8`, `1.05`, …) become the corresponding rationals.
* The mesh library (trimesh) is an external collaborator.  Solids built by
  `make_interlock_hybrid` are modelled as a free syntax tree (`Solid`), so
  that two call sites build equal solids exactly when they issue the same
  sequence of collaborator calls.  The fallible boolean primitive-union
  inside the builder is modelled by a boolean oracle `unionOk` (the
  `try/except` fallback to `concatenate`).
* The pipeline's collaborator calls (intersection, union, difference,
  cleanup, export, rendering) are fields of a `Collab` record; a `none` /
  `false` outcome models the call raising an exception, which the source
  catches with `try/except` at the corresponding scope.
* Python's global `random` module is a `Rng`: a value stream plus a
  position; `random.seed(seed)` installs the stream determined by the seed
  and resets the position, `random.uniform(a, b)` consumes one stream
  value `u` and returns `a + (b - a) * u`.
-/

abbrev Q3 : Type := ℚ × ℚ × ℚ

inductive Axis : Type where
  | x
  | y
  | z

/-- Free syntax of the solids the code builds through the mesh
collaborator: each constructor is one collaborator call of
`make_interlock_hybrid` (`src/backend.py` lines 11-60). -/
inductive Solid : Type where
  | cylinder (radius height : ℚ) (sections : ℕ)
  | icosphere (subdivisions : ℕ) (radius : ℚ)
  | translate (v : Q3) (s : Solid)
  | booleanUnion (a b : Solid)
  | concatenate (a b : Solid)
  | scale (factor : ℚ) (s : Solid)
  | rotateHalfPi (axisVec : Q3) (s : Solid)

/-- Embedding of `make_interlock_hybrid` from `src/backend.py`
(lines 11-60).  `unionOk` is the outcome oracle of the
`trimesh.boolean.union` call: on `false` the `except` branch concatenates
the two primitives instead.  `0.8` is `4/5`; the rotation is
`rotation_matrix(pi/2, axisVec)`. -/
def make_interlock_hybrid (unionOk : Bool) (center : Q3) (axis : Axis)
    (cyl_radius cyl_height sphere_radius : ℚ) (socket : Bool)
    (tolerance : ℚ) (flip_dir : Bool) : Solid :=
  let cyl : Solid :=
    Solid.translate (0, 0, cyl_height / 2) (Solid.cylinder cyl_radius cyl_height 24)
  let sphere : Solid :=
    Solid.translate (0, 0, cyl_height) (Solid.icosphere 2 sphere_radius)
  let hybrid : Solid :=
    if unionOk then Solid.booleanUnion cyl sphere else Solid.concatenate cyl sphere
  let hybrid : Solid :=
    if socket then Solid.scale tolerance hybrid else hybrid
  let hybrid : Solid :=
    match axis with
    | Axis.x => Solid.rotateHalfPi (0, 1, 0) hybrid
    | Axis.y => Solid.rotateHalfPi (1, 0, 0) hybrid
    | Axis.z => hybrid
  let direction : ℚ := if flip_dir then 1 else -1
  let offset : ℚ := cyl_height * (4 / 5) * direction
  let hybrid : Solid :=
    match axis with
    | Axis.x => Solid.translate (offset, 0, 0) hybrid
    | Axis.y => Solid.translate (0, offset, 0) hybrid
    | Axis.z => Solid.translate (0, 0, offset) hybrid
  Solid.translate center hybrid

/-- Embedding of `make_interlock_hybrid` from `src/backend2.py`
(lines 11-60), transcribed from that file independently of the
`src/backend.py` copy. -/
def make_interlock_hybrid2 (unionOk : Bool) (center : Q3) (axis : Axis)
    (cyl_radius cyl_height sphere_radius : ℚ) (socket : Bool)
    (tolerance : ℚ) (flip_dir : Bool) : Solid :=
  let cyl : Solid :=
    Solid.translate (0, 0, cyl_height / 2) (Solid.cylinder cyl_radius cyl_height 24)
  let sphere : Solid :=
    Solid.translate (0, 0, cyl_height) (Solid.icosphere 2 sphere_radius)
  let hybrid : Solid :=
    if unionOk then Solid.booleanUnion cyl sphere else Solid.concatenate cyl sphere
  let hybrid : Solid :=
    if socket then Solid.scale tolerance hybrid else hybrid
  let hybrid : Solid :=
    match axis with
    | Axis.x => Solid.rotateHalfPi (0, 1, 0) hybrid
    | Axis.y => Solid.rotateHalfPi (1, 0, 0) hybrid
    | Axis.z => hybrid
  let direction : ℚ := if flip_dir then 1 else -1
  let offset : ℚ := cyl_height * (4 / 5) * direction
  let hybrid : Solid :=
    match axis with
    | Axis.x => Solid.translate (offset, 0, 0) hybrid
    | Axis.y => Solid.translate (0, offset, 0) hybrid
    | Axis.z => Solid.translate (0, 0, offset) hybrid
  Solid.translate center hybrid

/-- Face-role decision of the X-face interlock loop,
`src/backend.py` line 179: `((i + j + k) % 2 == 0) ^ (n % 2 == 1)`. -/
def roleX (i j k n : ℕ) : Bool :=
  ((i + j + k) % 2 == 0) != (n % 2 == 1)

/-- Face-role decision of the Y-face interlock loop,
`src/backend.py` line 212. -/
def roleY (i j k n : ℕ) : Bool :=
  ((i + j + k) % 2 == 0) != (n % 2 == 1)

/-- Face-role decision of the Z-face interlock loop,
`src/backend.py` line 245. -/
def roleZ (i j k n : ℕ) : Bool :=
  ((i + j + k) % 2 == 0) != (n % 2 == 1)

/-- Claim C1: on every face axis the Key role is assigned exactly when
`((i+j+k) % 2 == 0) XOR (n % 2 == 1)`, and all three axes use the same
rule.  The three role functions take only `(i, j, k, n)` — no random
state and no mutable state appear in their types — so re-evaluation with
the same inputs always returns the same role, independent of the seed. -/
theorem claim_C1_face_role_rule (i j k n : ℕ) :
    roleX i j k n = xor ((i + j + k) % 2 == 0) (n % 2 == 1)
      ∧ roleY i j k n = roleX i j k n
      ∧ roleZ i j k n = roleX i j k n := by
  refine ⟨?_, rfl, rfl⟩
  cases h1 : ((i + j + k) % 2 == 0) <;> cases h2 : (n % 2 == 1) <;>
    simp [roleX, h1, h2]

/-- Claim C6: for grid-adjacent cells (indices differing by exactly 1 in
exactly one coordinate) the parity rule assigns opposite roles for every
instance index `n`, so a shared interior face never receives two Keys or
two Sockets. -/
theorem claim_C6_adjacent_roles_opposite (i j k n : ℕ) :
    roleX (i + 1) j k n = !roleX i j k n
      ∧ roleX i (j + 1) k n = !roleX i j k n
      ∧ roleX i j (k + 1) n = !roleX i j k n := by
  have hx : (i + 1 + j + k) % 2 = 1 - (i + j + k) % 2 := by omega
  have hy : (i + (j + 1) + k) % 2 = 1 - (i + j + k) % 2 := by omega
  have hz : (i + j + (k + 1)) % 2 = 1 - (i + j + k) % 2 := by omega
  have hs : (i + j + k) % 2 = 0 ∨ (i + j + k) % 2 = 1 := by omega
  refine ⟨?_, ?_, ?_⟩ <;>
    · simp only [roleX, hx, hy, hz]
      rcases hs with hs | hs <;> rw [hs] <;>
        cases h2 : (n % 2 == 1) <;> simp [h2]

/-- Claim C10: the `make_interlock_hybrid` of `src/backend.py` and the
`make_interlock_hybrid` of `src/backend2.py` are extensionally equal: for
every argument tuple and the same primitive-union outcome they return the
same interlock solid. -/
theorem claim_C10_builders_extensionally_equal (unionOk : Bool) (center : Q3)
    (axis : Axis) (cyl_radius cyl_height sphere_radius : ℚ) (socket : Bool)
    (tolerance : ℚ) (flip_dir : Bool) :
    make_interlock_hybrid unionOk center axis cyl_radius cyl_height
        sphere_radius socket tolerance flip_dir
      = make_interlock_hybrid2 unionOk center axis cyl_radius cyl_height
        sphere_radius socket tolerance flip_dir := by
  cases axis <;> rfl

/-- Python's global `random` module: a stream of `random()` values in
`[0, 1]` plus the current position. -/
structure Rng where
  stream : ℕ → ℚ
  pos : ℕ

/-- `random.uniform(a, b) = a + (b - a) * random()`: consume one stream
value and advance the position. -/
def uniform (a b : ℚ) (g : Rng) : ℚ × Rng :=
  (a + (b - a) * g.stream g.pos, ⟨g.stream, g.pos + 1⟩)

/-- Embedding of `np.linspace(lo, hi, n + 1)` as used at
`src/backend.py` lines 123-125: `n + 1` uniformly spaced samples
`lo + t * (hi - lo) / n` (exact rational arithmetic; for `n = 0` the
rational division by zero yields the single sample `lo`, matching
`np.linspace(lo, hi, 1)`). -/
def linspaceQ (lo hi : ℚ) (n : ℕ) : List ℚ :=
  (List.range (n + 1)).map (fun t : ℕ => lo + (t : ℚ) * (hi - lo) / (n : ℚ))

/-- Bounding box of the loaded mesh (`mesh.bounds`). -/
structure Bounds where
  xmin : ℚ
  xmax : ℚ
  ymin : ℚ
  ymax : ℚ
  zmin : ℚ
  zmax : ℚ

/-- The axis-aligned box of one grid cell:
`x0, x1 = x_cuts[i], x_cuts[i+1]` and so on
(`src/backend.py` lines 147-149). -/
structure Box where
  x0 : ℚ
  x1 : ℚ
  y0 : ℚ
  y1 : ℚ
  z0 : ℚ
  z1 : ℚ

/-- Invocation parameters of `generate_puzzle_from_stl`
(`src/backend.py` lines 63-73); floats as exact rationals. -/
structure Params where
  nx : ℕ
  ny : ℕ
  nz : ℕ
  locks_per_face : ℕ
  cyl_radius : ℚ
  cyl_height : ℚ
  sphere_radius : ℚ
  socket_tolerance : ℚ
  seed : ℕ
  output_dir : String

/-- The cell box of cell `(i, j, k)`, read off the three cut lists. -/
def cellBox (B : Bounds) (P : Params) (i j k : ℕ) : Box :=
  let xc := linspaceQ B.xmin B.xmax P.nx
  let yc := linspaceQ B.ymin B.ymax P.ny
  let zc := linspaceQ B.zmin B.zmax P.nz
  ⟨xc.getD i 0, xc.getD (i + 1) 0,
   yc.getD j 0, yc.getD (j + 1) 0,
   zc.getD k 0, zc.getD (k + 1) 0⟩

/-- The mesh/geometry collaborator (trimesh + matplotlib).  A `none`
(or `false`) outcome models the corresponding library call raising an
exception, which the source catches with `try/except` at that scope:
`intersection` is `mesh.intersection(cube)` for a cell box, `applyUnion`
and `applyDiff` are `trimesh.boolean.union/difference` of a piece with an
interlock solid, `cleanup` is the `process(validate=True)` +
`remove_degenerate_faces` + `remove_duplicate_faces` sequence, `exportOk`
is `submesh.export`, `renderOk` is the per-piece `add_collection3d`
registration, and `primUnionOk` is the primitive-union outcome inside
`make_interlock_hybrid`. -/
structure Collab (M : Type) where
  bounds : Bounds
  watertight : Bool
  intersection : Box → Option M
  isEmpty : M → Bool
  applyUnion : M → Solid → Option M
  applyDiff : M → Solid → Option M
  cleanup : M → Option M
  exportOk : M → Bool
  renderOk : M → Bool
  primUnionOk : Bool

/-- Per-piece mutable state while one cell's faces are processed:
the piece solid `submesh`, the global RNG, and the (observational) trace
of interlock centers drawn so far. -/
structure FState (M : Type) where
  m : M
  g : Rng
  centers : List Q3

/-- Per-run mutable state across cells (`piece_meshes`, `piece_paths`,
`piece_count`, the RNG, and the observational center trace). -/
structure RunState (M : Type) where
  g : Rng
  centers : List Q3
  pieceMeshes : List M
  piecePaths : List String
  pieceCount : ℕ

/-- The boolean operation attempted for instance `n` on the X face
(`src/backend.py` lines 178-198): a Key is unioned in (builder called
with `socket=False, flip_dir=False`, hence default `tolerance = 1.05`),
a Socket is subtracted (builder called with `socket=True,
tolerance=socket_tolerance, flip_dir=True`).  `none` models the boolean
operation raising. -/
def xAttempt {M : Type} (C : Collab M) (P : Params) (center : Q3)
    (i j k n : ℕ) (m : M) : Option M :=
  if roleX i j k n then
    C.applyUnion m (make_interlock_hybrid C.primUnionOk center Axis.x
      P.cyl_radius P.cyl_height P.sphere_radius false (21 / 20) false)
  else
    C.applyDiff m (make_interlock_hybrid C.primUnionOk center Axis.x
      P.cyl_radius P.cyl_height P.sphere_radius true P.socket_tolerance true)

/-- Same for the Y face (`src/backend.py` lines 211-231). -/
def yAttempt {M : Type} (C : Collab M) (P : Params) (center : Q3)
    (i j k n : ℕ) (m : M) : Option M :=
  if roleY i j k n then
    C.applyUnion m (make_interlock_hybrid C.primUnionOk center Axis.y
      P.cyl_radius P.cyl_height P.sphere_radius false (21 / 20) false)
  else
    C.applyDiff m (make_interlock_hybrid C.primUnionOk center Axis.y
      P.cyl_radius P.cyl_height P.sphere_radius true P.socket_tolerance true)

/-- Same for the Z face (`src/backend.py` lines 244-264). -/
def zAttempt {M : Type} (C : Collab M) (P : Params) (center : Q3)
    (i j k n : ℕ) (m : M) : Option M :=
  if roleZ i j k n then
    C.applyUnion m (make_interlock_hybrid C.primUnionOk center Axis.z
      P.cyl_radius P.cyl_height P.sphere_radius false (21 / 20) false)
  else
    C.applyDiff m (make_interlock_hybrid C.primUnionOk center Axis.z
      P.cyl_radius P.cyl_height P.sphere_radius true P.socket_tolerance true)

/-- One X-face interlock instance (`src/backend.py` lines 172-200):
draw `cy` and `cz` inside the face with a 20% edge margin, place the
center on the face plane `x1`, attempt the boolean operation; on failure
(`except`) the piece solid keeps its previous value.  The drawn center is
appended to the observational trace. -/
def xInstanceStep {M : Type} (C : Collab M) (P : Params) (bx : Box)
    (i j k n : ℕ) (f : FState M) : FState M :=
  let (cy, g1) := uniform (bx.y0 + (1 / 5) * (bx.y1 - bx.y0))
                          (bx.y1 - (1 / 5) * (bx.y1 - bx.y0)) f.g
  let (cz, g2) := uniform (bx.z0 + (1 / 5) * (bx.z1 - bx.z0))
                          (bx.z1 - (1 / 5) * (bx.z1 - bx.z0)) g1
  let center : Q3 := (bx.x1, cy, cz)
  ⟨(xAttempt C P center i j k n f.m).getD f.m, g2, f.centers ++ [center]⟩

/-- One Y-face interlock instance (`src/backend.py` lines 205-233):
draws `cx` then `cz`, center on the face plane `y1`. -/
def yInstanceStep {M : Type} (C : Collab M) (P : Params) (bx : Box)
    (i j k n : ℕ) (f : FState M) : FState M :=
  let (cx, g1) := uniform (bx.x0 + (1 / 5) * (bx.x1 - bx.x0))
                          (bx.x1 - (1 / 5) * (bx.x1 - bx.x0)) f.g
  let (cz, g2) := uniform (bx.z0 + (1 / 5) * (bx.z1 - bx.z0))
                          (bx.z1 - (1 / 5) * (bx.z1 - bx.z0)) g1
  let center : Q3 := (cx, bx.y1, cz)
  ⟨(yAttempt C P center i j k n f.m).getD f.m, g2, f.centers ++ [center]⟩

/-- One Z-face interlock instance (`src/backend.py` lines 238-266):
draws `cx` then `cy`, center on the face plane `z1`. -/
def zInstanceStep {M : Type} (C : Collab M) (P : Params) (bx : Box)
    (i j k n : ℕ) (f : FState M) : FState M :=
  let (cx, g1) := uniform (bx.x0 + (1 / 5) * (bx.x1 - bx.x0))
                          (bx.x1 - (1 / 5) * (bx.x1 - bx.x0)) f.g
  let (cy, g2) := uniform (bx.y0 + (1 / 5) * (bx.y1 - bx.y0))
                          (bx.y1 - (1 / 5) * (bx.y1 - bx.y0)) g1
  let center : Q3 := (cx, cy, bx.z1)
  ⟨(zAttempt C P center i j k n f.m).getD f.m, g2, f.centers ++ [center]⟩

/-- `for n in range(locks_per_face)` over the X face. -/
def faceX {M : Type} (C : Collab M) (P : Params) (bx : Box)
    (i j k : ℕ) (f : FState M) : FState M :=
  (List.range P.locks_per_face).foldl (fun f n => xInstanceStep C P bx i j k n f) f

/-- `for n in range(locks_per_face)` over the Y face. -/
def faceY {M : Type} (C : Collab M) (P : Params) (bx : Box)
    (i j k : ℕ) (f : FState M) : FState M :=
  (List.range P.locks_per_face).foldl (fun f n => yInstanceStep C P bx i j k n f) f

/-- `for n in range(locks_per_face)` over the Z face. -/
def faceZ {M : Type} (C : Collab M) (P : Params) (bx : Box)
    (i j k : ℕ) (f : FState M) : FState M :=
  (List.range P.locks_per_face).foldl (fun f n => zInstanceStep C P bx i j k n f) f

/-- The face-processing phase of one cell: the X, Y, Z face blocks in
source order, each guarded by the neighbor-existence test
(`i < nx - 1` and so on; ℕ truncated subtraction agrees with the Python
comparison against `nx - 1` for every reachable index). -/
def assembleFaces {M : Type} (C : Collab M) (P : Params) (B : Bounds)
    (i j k : ℕ) (f0 : FState M) : FState M :=
  let bx := cellBox B P i j k
  let f1 := if i < P.nx - 1 then faceX C P bx i j k f0 else f0
  let f2 := if j < P.ny - 1 then faceY C P bx i j k f1 else f1
  if k < P.nz - 1 then faceZ C P bx i j k f2 else f2

/-- `os.path.join(output_dir, f"piece_{i}_{j}_{k}.stl")`. -/
def pieceFile (P : Params) (i j k : ℕ) : String :=
  P.output_dir ++ "/piece_" ++ toString i ++ "_" ++ toString j ++ "_"
    ++ toString k ++ ".stl"

/-- The per-piece export step (`src/backend.py` lines 268-282): one
`try` block holding cleanup, export, and the bookkeeping appends.  If
`cleanup` raises (`none`) the exception is caught by this block's
`except` and nothing below it runs; if export fails, nothing is
appended; on success the cleaned mesh, the file path and the counter are
recorded. -/
def exportPiece {M : Type} (C : Collab M) (P : Params) (i j k : ℕ)
    (m : M) (st : RunState M) : RunState M :=
  match C.cleanup m with
  | none => st
  | some m' =>
    if C.exportOk m' then
      { st with
        pieceMeshes := st.pieceMeshes ++ [m'],
        piecePaths := st.piecePaths ++ [pieceFile P i j k],
        pieceCount := st.pieceCount + 1 }
    else st

/-- The body of the triple cell loop (`src/backend.py` lines 141-284):
intersect the mesh with the cell box (a raising intersection or an empty
result skips the cell), process the three face blocks, then export. -/
def processCell {M : Type} (C : Collab M) (P : Params) (B : Bounds)
    (st : RunState M) (c : ℕ × ℕ × ℕ) : RunState M :=
  let (i, j, k) := c
  match C.intersection (cellBox B P i j k) with
  | none => st
  | some m =>
    if C.isEmpty m then st
    else
      let f := assembleFaces C P B i j k ⟨m, st.g, st.centers⟩
      exportPiece C P i j k f.m
        { st with g := f.g, centers := f.centers }

/-- The nested ascending iteration order
`for i in range(nx): for j in range(ny): for k in range(nz)`. -/
def cellList (nx ny nz : ℕ) : List (ℕ × ℕ × ℕ) :=
  (List.range nx).flatMap (fun i =>
    (List.range ny).flatMap (fun j =>
      (List.range nz).map (fun k => (i, j, k))))

/-- The five fixed camera angles of the preview rendering
(`src/backend.py` lines 328-334). -/
def viewAngles : List (ℕ × ℕ) :=
  [(20, 30), (90, 0), (0, 0), (0, 90), (45, 45)]

/-- `os.path.join(output_dir, f"puzzle_view_{idx+1}_e{elev}_a{azim}.png")`. -/
def viewFile (P : Params) (idx elev azim : ℕ) : String :=
  P.output_dir ++ "/puzzle_view_" ++ toString (idx + 1) ++ "_e"
    ++ toString elev ++ "_a" ++ toString azim ++ ".png"

/-- The five saved preview paths, in view-angle order
(`src/backend.py` lines 336-343). -/
def renderViews (P : Params) : List String :=
  viewAngles.enum.map (fun p => viewFile P p.1 p.2.1 p.2.2)

/-- The pieces registered for rendering with their palette indices
(`src/backend.py` lines 296-311): the palette has
`max 1 (number of pieces)` colors and piece `idx` (export order) uses
color `idx % palette size`; a piece whose registration raises is skipped
with a warning. -/
def colorIndexAssignments {M : Type} (C : Collab M) (pieces : List M) :
    List (M × ℕ) :=
  pieces.enum.filterMap (fun p =>
    if C.renderOk p.2 then some (p.2, p.1 % max 1 pieces.length) else none)

/-- The `mesh_info` statistics record (`src/backend.py` lines 351-358);
the `"{...:.1f}%"` percentage string is modelled by the exact rational
percentage value `(piece_count / total_pieces) * 100`. -/
structure MeshInfo where
  watertight : Bool
  filledMeshFile : String
  pieceCount : ℕ
  totalPossiblePieces : ℕ
  successRate : ℚ

/-- The dictionary returned by `generate_puzzle_from_stl`
(`src/backend.py` lines 360-364), extended with two observational
traces: the interlock centers drawn during the run and the
piece/palette-index pairs registered for rendering. -/
structure Report (M : Type) where
  piecePaths : List String
  viewImagePaths : List String
  meshInfo : MeshInfo
  centers : List Q3
  renderedColors : List (M × ℕ)

/-- Embedding of `generate_puzzle_from_stl` (`src/backend.py` lines
63-364).  `streamOfSeed` is the pseudo-random value stream determined by
a seed; `g0` is the state of the process-wide `random` module when the
call starts — `random.seed(seed)` (line 128) replaces it by the seeded
stream at position 0 before any draw. -/
def generate_puzzle_from_stl {M : Type} (C : Collab M) (P : Params)
    (streamOfSeed : ℕ → ℕ → ℚ) (g0 : Rng) : Report M :=
  let B := C.bounds
  let g : Rng := ⟨streamOfSeed P.seed, 0⟩
  let total := P.nx * P.ny * P.nz
  let st0 : RunState M := ⟨g, [], [], [], 0⟩
  let st := (cellList P.nx P.ny P.nz).foldl (processCell C P B) st0
  { piecePaths := st.piecePaths
    viewImagePaths :=
      if 0 < st.pieceMeshes.length then renderViews P else []
    meshInfo :=
      { watertight := C.watertight
        filledMeshFile := P.output_dir ++ "/input_filled.stl"
        pieceCount := st.pieceCount
        totalPossiblePieces := total
        successRate :=
          if 0 < total then ((st.pieceCount : ℚ) / (total : ℚ)) * 100 else 0 }
    centers := st.centers
    renderedColors :=
      if 0 < st.pieceMeshes.length then colorIndexAssignments C st.pieceMeshes
      else [] }

/-! Helper lemmas about the grid cut sequences. -/

theorem linspaceQ_length (lo hi : ℚ) (n : ℕ) :
    (linspaceQ lo hi n).length = n + 1 := by
  unfold linspaceQ
  rw [List.length_map, List.length_range]

theorem linspaceQ_getD (lo hi : ℚ) (n t : ℕ) (h : t < n + 1) :
    (linspaceQ lo hi n).getD t 0 = lo + (t : ℚ) * (hi - lo) / (n : ℚ) := by
  unfold linspaceQ
  rw [List.getD_eq_getElem?_getD, List.getElem?_map, List.getElem?_range h]
  rfl

/-- Claim C2, counterexample: for the degenerate (but accepted) bounds
`min = max = 0` and `n = 1`, the cut sequence is `[0, 0]`, which is not
strictly increasing, so the claim as stated fails for this bounds
pair. -/
theorem claim_C2_counterexample :
    ¬ (linspaceQ 0 0 1).Pairwise (· < ·) := by
  have h : linspaceQ 0 0 1 = [0, 0] := by
    norm_num [linspaceQ, List.range_succ]
  rw [h]
  intro hp
  rcases List.pairwise_cons.mp hp with ⟨h0, _⟩
  exact absurd (h0 0 (by simp)) (lt_irrefl 0)

/-- Claim C2 (amended): for every bounds pair and every `n ≥ 1` the cut
sequence has exactly `n + 1` entries with `cuts[t] = min + t*(max-min)/n`,
so `cuts[0] = min` and `cuts[n] = max` (exact rational arithmetic); it is
strictly increasing whenever `min < max` (degenerate bounds `min = max`
yield repeated coordinates). -/
theorem claim_C2_amended (lo hi : ℚ) (n : ℕ) (hn : 1 ≤ n) :
    (linspaceQ lo hi n).length = n + 1
    ∧ (∀ t, t ≤ n →
        (linspaceQ lo hi n).getD t 0 = lo + (t : ℚ) * (hi - lo) / (n : ℚ))
    ∧ (linspaceQ lo hi n).getD 0 0 = lo
    ∧ (linspaceQ lo hi n).getD n 0 = hi
    ∧ (lo < hi → (linspaceQ lo hi n).Pairwise (· < ·)) := by
  have hn0 : ((n : ℚ)) ≠ 0 := Nat.cast_ne_zero.mpr (by omega)
  refine ⟨linspaceQ_length lo hi n, ?_, ?_, ?_, ?_⟩
  · intro t ht
    exact linspaceQ_getD lo hi n t (by omega)
  · rw [linspaceQ_getD lo hi n 0 (by omega)]
    simp
  · rw [linspaceQ_getD lo hi n n (by omega)]
    rw [mul_div_cancel_left₀ _ hn0]
    ring
  · intro hlt
    have hstep : (0 : ℚ) < hi - lo := sub_pos.mpr hlt
    have hnpos : (0 : ℚ) < (n : ℚ) := by exact_mod_cast (by omega : 0 < n)
    unfold linspaceQ
    rw [List.pairwise_map]
    refine List.Pairwise.imp ?_ (List.pairwise_lt_range (n + 1))
    intro a b hab
    have hcast : (a : ℚ) < (b : ℚ) := by exact_mod_cast hab
    have hmul : (a : ℚ) * (hi - lo) < (b : ℚ) * (hi - lo) :=
      mul_lt_mul_of_pos_right hcast hstep
    exact add_lt_add_left (div_lt_div_of_pos_right hmul hnpos) lo

/-- Witness for claim C2 (amended) at `lo = 0`, `hi = 2`, `n = 2`. -/
theorem claim_C2_witness :
    1 ≤ 2 ∧
      ((linspaceQ 0 2 2).length = 2 + 1
      ∧ (∀ t, t ≤ 2 →
          (linspaceQ 0 2 2).getD t 0 = 0 + (t : ℚ) * (2 - 0) / ((2 : ℕ) : ℚ))
      ∧ (linspaceQ 0 2 2).getD 0 0 = 0
      ∧ (linspaceQ 0 2 2).getD 2 0 = 2
      ∧ ((0 : ℚ) < 2 → (linspaceQ 0 2 2).Pairwise (· < ·))) :=
  ⟨by norm_num, claim_C2_amended 0 2 2 (by norm_num)⟩

/-! Concrete fixtures used by counterexamples and witnesses. -/

/-- A fixed RNG state (prior global state of the `random` module). -/
def rng0 : Rng := ⟨fun _ => 0, 0⟩

/-- A seed-to-stream table whose every stream is constantly `0`. -/
def seedStream0 : ℕ → ℕ → ℚ := fun _ _ => 0

/-- An empty run state over meshes modelled as `ℕ`. -/
def st0 : RunState ℕ := ⟨rng0, [], [], [], 0⟩

/-- A unit-cube bounding box. -/
def B0 : Bounds := ⟨0, 1, 0, 1, 0, 1⟩

/-- The default invocation parameters of `generate_puzzle_from_stl`
(`divisions=(2,2,2)`, `locks_per_face=3`, `cyl_radius=0.3`,
`cyl_height=0.5`, `sphere_radius=0.4`, `socket_tolerance=1.06`,
`seed=42`). -/
def P0 : Params :=
  ⟨2, 2, 2, 3, 3 / 10, 1 / 2, 2 / 5, 53 / 50, 42, "printable_puzzle"⟩

/-- Default parameters restricted to a single cell (`divisions=(1,1,1)`). -/
def P1 : Params :=
  ⟨1, 1, 1, 3, 3 / 10, 1 / 2, 2 / 5, 53 / 50, 42, "printable_puzzle"⟩

/-- Default parameters with `divisions=(0,2,2)`: `nx = 0` is outside the
declared `≥ 1` constraint. -/
def P7 : Params :=
  ⟨0, 2, 2, 3, 3 / 10, 1 / 2, 2 / 5, 53 / 50, 42, "printable_puzzle"⟩

/-- A collaborator over `ℕ`-meshes whose every operation succeeds. -/
def collabOkNat : Collab ℕ :=
  { bounds := B0
    watertight := true
    intersection := fun _ => some 0
    isEmpty := fun _ => false
    applyUnion := fun m _ => some m
    applyDiff := fun m _ => some m
    cleanup := fun m => some m
    exportOk := fun _ => true
    renderOk := fun _ => true
    primUnionOk := true }

/-- A collaborator whose post-assembly cleanup always raises. -/
def collabCleanupRaises : Collab ℕ :=
  { collabOkNat with cleanup := fun _ => none }

/-- A collaborator whose boolean union and difference always raise. -/
def collabOpsRaise : Collab ℕ :=
  { collabOkNat with
    intersection := fun _ => some 5
    applyUnion := fun _ _ => none
    applyDiff := fun _ _ => none }

/-- Claim C3, counterexample: with a cleanup that raises, the export
step records nothing — the piece is not exported, not added to
`piece_paths`, and does not contribute to `piece_count` — because
cleanup and export share one `try` block
(`src/backend.py` lines 270-282). -/
theorem claim_C3_counterexample :
    (exportPiece collabCleanupRaises P0 0 0 0 7 st0).pieceCount = 0
    ∧ (exportPiece collabCleanupRaises P0 0 0 0 7 st0).piecePaths = [] :=
  ⟨rfl, rfl⟩

/-- Claim C3 (amended): if the post-assembly cleanup raises, the
exception is caught by the per-piece export handler and the run
continues with the next cell, but the piece is NOT exported: the run
state is unchanged — no file, no `piece_paths` entry, no `piece_count`
increment. -/
theorem claim_C3_amended {M : Type} (C : Collab M) (P : Params)
    (i j k : ℕ) (m : M) (st : RunState M) (h : C.cleanup m = none) :
    exportPiece C P i j k m st = st := by
  unfold exportPiece
  rw [h]

/-- Witness for claim C3 (amended) at the concrete failing
collaborator. -/
theorem claim_C3_witness :
    collabCleanupRaises.cleanup 7 = none
    ∧ exportPiece collabCleanupRaises P0 0 0 0 7 st0 = st0 :=
  ⟨rfl, claim_C3_amended collabCleanupRaises P0 0 0 0 7 st0 rfl⟩

/-- Claim C7: the code performs no parameter validation.  Called with
`divisions=(0,2,2)` (outside the declared `nx ≥ 1` constraint) it does
not reject the input: the pipeline runs to completion and returns a
degenerate silent report with `total_possible_pieces = 0`,
`piece_count = 0`, `success_rate` `0%`, no pieces and no previews. -/
theorem claim_C7_degenerate_silent_report :
    (generate_puzzle_from_stl collabOkNat P7 seedStream0 rng0).meshInfo.totalPossiblePieces = 0
    ∧ (generate_puzzle_from_stl collabOkNat P7 seedStream0 rng0).meshInfo.pieceCount = 0
    ∧ (generate_puzzle_from_stl collabOkNat P7 seedStream0 rng0).meshInfo.successRate = 0
    ∧ (generate_puzzle_from_stl collabOkNat P7 seedStream0 rng0).piecePaths = []
    ∧ (generate_puzzle_from_stl collabOkNat P7 seedStream0 rng0).viewImagePaths = [] :=
  ⟨rfl, rfl, rfl, rfl, rfl⟩

/-- Claim C8: `random.seed(seed)` at the start of the run
(`src/backend.py` line 128) makes the run output independent of the
pre-existing global RNG state: two runs with identical collaborator,
parameters and seed produce the identical sequence of interlock center
coordinates (drawn in fixed face order X, Y, Z and increasing `n`) and
an identical `piece_count`, whatever RNG states the two runs start
from. -/
theorem claim_C8_reseeded_runs_identical {M : Type} (C : Collab M)
    (P : Params) (streamOfSeed : ℕ → ℕ → ℚ) (g0 g1 : Rng) :
    (generate_puzzle_from_stl C P streamOfSeed g0).centers
        = (generate_puzzle_from_stl C P streamOfSeed g1).centers
    ∧ (generate_puzzle_from_stl C P streamOfSeed g0).meshInfo.pieceCount
        = (generate_puzzle_from_stl C P streamOfSeed g1).meshInfo.pieceCount :=
  ⟨rfl, rfl⟩

/-! Helper lemmas for interlock-failure tolerance. -/

theorem xInstanceStep_m_of_fail {M : Type} (C : Collab M) (P : Params)
    (bx : Box) (i j k n : ℕ) (f : FState M)
    (hu : ∀ m s, C.applyUnion m s = none)
    (hd : ∀ m s, C.applyDiff m s = none) :
    (xInstanceStep C P bx i j k n f).m = f.m := by
  cases h : roleX i j k n <;>
    simp [xInstanceStep, uniform, xAttempt, h, hu, hd]

theorem yInstanceStep_m_of_fail {M : Type} (C : Collab M) (P : Params)
    (bx : Box) (i j k n : ℕ) (f : FState M)
    (hu : ∀ m s, C.applyUnion m s = none)
    (hd : ∀ m s, C.applyDiff m s = none) :
    (yInstanceStep C P bx i j k n f).m = f.m := by
  cases h : roleY i j k n <;>
    simp [yInstanceStep, uniform, yAttempt, h, hu, hd]

theorem zInstanceStep_m_of_fail {M : Type} (C : Collab M) (P : Params)
    (bx : Box) (i j k n : ℕ) (f : FState M)
    (hu : ∀ m s, C.applyUnion m s = none)
    (hd : ∀ m s, C.applyDiff m s = none) :
    (zInstanceStep C P bx i j k n f).m = f.m := by
  cases h : roleZ i j k n <;>
    simp [zInstanceStep, uniform, zAttempt, h, hu, hd]

theorem foldl_m_preserved {M : Type} (step : ℕ → FState M → FState M)
    (hstep : ∀ n f, (step n f).m = f.m) :
    ∀ (l : List ℕ) (f : FState M),
      (l.foldl (fun f n => step n f) f).m = f.m := by
  intro l
  induction l with
  | nil => intro f; rfl
  | cons a t ih =>
    intro f
    simp only [List.foldl_cons]
    rw [ih, hstep]

theorem assembleFaces_m_of_fail {M : Type} (C : Collab M) (P : Params)
    (B : Bounds) (i j k : ℕ) (f0 : FState M)
    (hu : ∀ m s, C.applyUnion m s = none)
    (hd : ∀ m s, C.applyDiff m s = none) :
    (assembleFaces C P B i j k f0).m = f0.m := by
  have hX : ∀ f : FState M, (faceX C P (cellBox B P i j k) i j k f).m = f.m :=
    fun f => foldl_m_preserved _
      (fun n f => xInstanceStep_m_of_fail C P _ i j k n f hu hd) _ f
  have hY : ∀ f : FState M, (faceY C P (cellBox B P i j k) i j k f).m = f.m :=
    fun f => foldl_m_preserved _
      (fun n f => yInstanceStep_m_of_fail C P _ i j k n f hu hd) _ f
  have hZ : ∀ f : FState M, (faceZ C P (cellBox B P i j k) i j k f).m = f.m :=
    fun f => foldl_m_preserved _
      (fun n f => zInstanceStep_m_of_fail C P _ i j k n f hu hd) _ f
  unfold assembleFaces
  by_cases h1 : i < P.nx - 1 <;> by_cases h2 : j < P.ny - 1 <;>
    by_cases h3 : k < P.nz - 1 <;> simp [h1, h2, h3, hX, hY, hZ]

/-- Claim C4: per-interlock fault tolerance.  If the boolean union or
difference for an instance raises (`none`), the instance step leaves the
piece solid unchanged; with every application failing, the whole
face-processing phase leaves the piece solid at its pre-failure value;
and the cell still reaches the export step — `processCell` hands exactly
the intersection result `m` to `exportPiece`, so no interlock failure
ever aborts the piece. -/
theorem claim_C4_interlock_failure_tolerated {M : Type} (C : Collab M)
    (P : Params) (B : Bounds) (st : RunState M) (i j k : ℕ) (m : M)
    (hu : ∀ m' s, C.applyUnion m' s = none)
    (hd : ∀ m' s, C.applyDiff m' s = none)
    (hI : C.intersection (cellBox B P i j k) = some m)
    (hE : C.isEmpty m = false) :
    (∀ (bx : Box) (n : ℕ) (f : FState M),
        (xInstanceStep C P bx i j k n f).m = f.m
        ∧ (yInstanceStep C P bx i j k n f).m = f.m
        ∧ (zInstanceStep C P bx i j k n f).m = f.m)
    ∧ (assembleFaces C P B i j k ⟨m, st.g, st.centers⟩).m = m
    ∧ processCell C P B st (i, j, k)
        = exportPiece C P i j k m
            { st with
              g := (assembleFaces C P B i j k ⟨m, st.g, st.centers⟩).g,
              centers := (assembleFaces C P B i j k ⟨m, st.g, st.centers⟩).centers } := by
  have hA : (assembleFaces C P B i j k ⟨m, st.g, st.centers⟩).m = m :=
    assembleFaces_m_of_fail C P B i j k _ hu hd
  refine ⟨?_, hA, ?_⟩
  · intro bx n f
    exact ⟨xInstanceStep_m_of_fail C P bx i j k n f hu hd,
      yInstanceStep_m_of_fail C P bx i j k n f hu hd,
      zInstanceStep_m_of_fail C P bx i j k n f hu hd⟩
  · simp only [processCell, hI, hE]
    rw [hA]
    simp

/-- Witness for claim C4: a concrete collaborator whose boolean
operations all raise, on cell `(0,0,0)` of the default 2×2×2 grid. -/
theorem claim_C4_witness :
    (∀ (m' : ℕ) (s : Solid), collabOpsRaise.applyUnion m' s = none)
    ∧ (∀ (m' : ℕ) (s : Solid), collabOpsRaise.applyDiff m' s = none)
    ∧ collabOpsRaise.intersection (cellBox B0 P0 0 0 0) = some 5
    ∧ collabOpsRaise.isEmpty 5 = false
    ∧ ((∀ (bx : Box) (n : ℕ) (f : FState ℕ),
          (xInstanceStep collabOpsRaise P0 bx 0 0 0 n f).m = f.m
          ∧ (yInstanceStep collabOpsRaise P0 bx 0 0 0 n f).m = f.m
          ∧ (zInstanceStep collabOpsRaise P0 bx 0 0 0 n f).m = f.m)
        ∧ (assembleFaces collabOpsRaise P0 B0 0 0 0 ⟨5, st0.g, st0.centers⟩).m = 5
        ∧ processCell collabOpsRaise P0 B0 st0 (0, 0, 0)
            = exportPiece collabOpsRaise P0 0 0 0 5
                { st0 with
                  g := (assembleFaces collabOpsRaise P0 B0 0 0 0 ⟨5, st0.g, st0.centers⟩).g,
                  centers := (assembleFaces collabOpsRaise P0 B0 0 0 0 ⟨5, st0.g, st0.centers⟩).centers }) :=
  ⟨fun _ _ => rfl, fun _ _ => rfl, rfl, rfl,
    claim_C4_interlock_failure_tolerated collabOpsRaise P0 B0 st0 0 0 0 5
      (fun _ _ => rfl) (fun _ _ => rfl) rfl rfl⟩

/-! Helper lemmas for the run statistics. -/


theorem exportPiece_pieceCount_le {M : Type} (C : Collab M) (P : Params)
    (i j k : ℕ) (m : M) (st : RunState M) :
    (exportPiece C P i j k m st).pieceCount ≤ st.pieceCount + 1 := by
  unfold exportPiece
  rcases C.cleanup m with _ | m'
  · exact Nat.le_succ _
  · show (if C.exportOk m' = true then _ else st).pieceCount ≤ st.pieceCount + 1
    by_cases he : C.exportOk m' = true
    · rw [if_pos he]
    · rw [if_neg he]
      exact Nat.le_succ _

theorem processCell_pieceCount_le {M : Type} (C : Collab M) (P : Params)
    (B : Bounds) (st : RunState M) (c : ℕ × ℕ × ℕ) :
    (processCell C P B st c).pieceCount ≤ st.pieceCount + 1 := by
  obtain ⟨i, j, k⟩ := c
  simp only [processCell]
  rcases C.intersection (cellBox B P i j k) with _ | m
  · exact Nat.le_succ _
  · show (if C.isEmpty m = true then st else _).pieceCount ≤ st.pieceCount + 1
    by_cases hE : C.isEmpty m = true
    · rw [if_pos hE]
      exact Nat.le_succ _
    · rw [if_neg hE]
      exact exportPiece_pieceCount_le C P i j k _ _

theorem foldl_pieceCount_le {M : Type} (C : Collab M) (P : Params)
    (B : Bounds) :
    ∀ (l : List (ℕ × ℕ × ℕ)) (st : RunState M),
      (l.foldl (processCell C P B) st).pieceCount ≤ st.pieceCount + l.length := by
  intro l
  induction l with
  | nil => intro st; simp
  | cons a t ih =>
    intro st
    simp only [List.foldl_cons, List.length_cons]
    have h1 := ih (processCell C P B st a)
    have h2 := processCell_pieceCount_le C P B st a
    omega

theorem cellList_length (nx ny nz : ℕ) :
    (cellList nx ny nz).length = nx * ny * nz := by
  unfold cellList
  simp [List.length_flatMap, Function.comp_def, List.map_const',
    List.sum_replicate, smul_eq_mul, mul_assoc]

/-- Claim C5: the returned statistics satisfy
`total_possible_pieces = nx*ny*nz`, `piece_count ≤ total_possible_pieces`
(`piece_count` is a natural number, so `0 ≤ piece_count` holds by type),
and `success_rate` is the exact percentage
`piece_count / total_possible_pieces * 100`, reported as `0` when
`total_possible_pieces = 0`. -/
theorem claim_C5_statistics_invariants {M : Type} (C : Collab M)
    (P : Params) (streamOfSeed : ℕ → ℕ → ℚ) (g0 : Rng) :
    (generate_puzzle_from_stl C P streamOfSeed g0).meshInfo.totalPossiblePieces
        = P.nx * P.ny * P.nz
    ∧ (generate_puzzle_from_stl C P streamOfSeed g0).meshInfo.pieceCount
        ≤ (generate_puzzle_from_stl C P streamOfSeed g0).meshInfo.totalPossiblePieces
    ∧ ((generate_puzzle_from_stl C P streamOfSeed g0).meshInfo.totalPossiblePieces ≠ 0 →
        (generate_puzzle_from_stl C P streamOfSeed g0).meshInfo.successRate
          = ((generate_puzzle_from_stl C P streamOfSeed g0).meshInfo.pieceCount : ℚ)
            / ((generate_puzzle_from_stl C P streamOfSeed g0).meshInfo.totalPossiblePieces : ℚ)
            * 100)
    ∧ ((generate_puzzle_from_stl C P streamOfSeed g0).meshInfo.totalPossiblePieces = 0 →
        (generate_puzzle_from_stl C P streamOfSeed g0).meshInfo.successRate = 0) := by
  refine ⟨rfl, ?_, ?_, ?_⟩
  · show ((cellList P.nx P.ny P.nz).foldl (processCell C P C.bounds)
        ⟨⟨streamOfSeed P.seed, 0⟩, [], [], [], 0⟩).pieceCount ≤ P.nx * P.ny * P.nz
    have h := foldl_pieceCount_le C P C.bounds (cellList P.nx P.ny P.nz)
      ⟨⟨streamOfSeed P.seed, 0⟩, [], [], [], 0⟩
    rw [cellList_length] at h
    have h0 : (⟨⟨streamOfSeed P.seed, 0⟩, [], [], [], 0⟩ : RunState M).pieceCount = 0 := rfl
    rw [h0] at h
    simpa using h
  · intro h
    have h' : P.nx * P.ny * P.nz ≠ 0 := h
    show (if 0 < P.nx * P.ny * P.nz then _ else (0 : ℚ)) = _
    rw [if_pos (Nat.pos_of_ne_zero h')]
    rfl
  · intro h
    have h' : P.nx * P.ny * P.nz = 0 := h
    show (if 0 < P.nx * P.ny * P.nz then _ else (0 : ℚ)) = 0
    rw [if_neg (by omega)]

/-- Witness for claim C5 on a concrete all-successful single-cell run
(the nonzero-denominator hypothesis discharged at `divisions=(1,1,1)`,
where `total_possible_pieces = 1`). -/
theorem claim_C5_witness :
    (generate_puzzle_from_stl collabOkNat P1 seedStream0 rng0).meshInfo.totalPossiblePieces
        = P1.nx * P1.ny * P1.nz
    ∧ (generate_puzzle_from_stl collabOkNat P1 seedStream0 rng0).meshInfo.pieceCount
        ≤ (generate_puzzle_from_stl collabOkNat P1 seedStream0 rng0).meshInfo.totalPossiblePieces
    ∧ (generate_puzzle_from_stl collabOkNat P1 seedStream0 rng0).meshInfo.totalPossiblePieces ≠ 0
    ∧ (generate_puzzle_from_stl collabOkNat P1 seedStream0 rng0).meshInfo.successRate
        = ((generate_puzzle_from_stl collabOkNat P1 seedStream0 rng0).meshInfo.pieceCount : ℚ)
          / ((generate_puzzle_from_stl collabOkNat P1 seedStream0 rng0).meshInfo.totalPossiblePieces : ℚ)
          * 100 :=
  ⟨(claim_C5_statistics_invariants collabOkNat P1 seedStream0 rng0).1,
   (claim_C5_statistics_invariants collabOkNat P1 seedStream0 rng0).2.1,
   by decide,
   (claim_C5_statistics_invariants collabOkNat P1 seedStream0 rng0).2.2.1 (by decide)⟩

/-! Helper lemmas for the rendering stage. -/

/-- The per-run fold of `generate_puzzle_from_stl`, named for use in
proofs (definitionally the pipeline's internal cell loop). -/
def runFold {M : Type} (C : Collab M) (P : Params)
    (streamOfSeed : ℕ → ℕ → ℚ) : RunState M :=
  (cellList P.nx P.ny P.nz).foldl (processCell C P C.bounds)
    ⟨⟨streamOfSeed P.seed, 0⟩, [], [], [], 0⟩

theorem exportPiece_meshes_inv {M : Type} (C : Collab M) (P : Params)
    (i j k : ℕ) (m : M) (st : RunState M)
    (h : st.pieceMeshes.length = st.pieceCount) :
    (exportPiece C P i j k m st).pieceMeshes.length
      = (exportPiece C P i j k m st).pieceCount := by
  unfold exportPiece
  split
  · exact h
  · split
    · simp [h]
    · exact h

theorem processCell_meshes_inv {M : Type} (C : Collab M) (P : Params)
    (B : Bounds) (st : RunState M) (c : ℕ × ℕ × ℕ)
    (h : st.pieceMeshes.length = st.pieceCount) :
    (processCell C P B st c).pieceMeshes.length
      = (processCell C P B st c).pieceCount := by
  obtain ⟨i, j, k⟩ := c
  simp only [processCell]
  split
  · exact h
  · split
    · exact h
    · exact exportPiece_meshes_inv C P i j k _ _ h

theorem foldl_meshes_inv {M : Type} (C : Collab M) (P : Params)
    (B : Bounds) :
    ∀ (l : List (ℕ × ℕ × ℕ)) (st : RunState M),
      st.pieceMeshes.length = st.pieceCount →
      (l.foldl (processCell C P B) st).pieceMeshes.length
        = (l.foldl (processCell C P B) st).pieceCount := by
  intro l
  induction l with
  | nil => intro st h; exact h
  | cons a t ih =>
    intro st h
    simp only [List.foldl_cons]
    exact ih _ (processCell_meshes_inv C P B st a h)

theorem runFold_meshes_inv {M : Type} (C : Collab M) (P : Params)
    (streamOfSeed : ℕ → ℕ → ℚ) :
    (runFold C P streamOfSeed).pieceMeshes.length
      = (runFold C P streamOfSeed).pieceCount :=
  foldl_meshes_inv C P C.bounds _ _ rfl

theorem viewFile_1 (P : Params) :
    viewFile P 0 20 30 = P.output_dir ++ "/puzzle_view_1_e20_a30.png" := by
  unfold viewFile
  simp only [String.append_assoc]
  congr 1

theorem viewFile_2 (P : Params) :
    viewFile P 1 90 0 = P.output_dir ++ "/puzzle_view_2_e90_a0.png" := by
  unfold viewFile
  simp only [String.append_assoc]
  congr 1

theorem viewFile_3 (P : Params) :
    viewFile P 2 0 0 = P.output_dir ++ "/puzzle_view_3_e0_a0.png" := by
  unfold viewFile
  simp only [String.append_assoc]
  congr 1

theorem viewFile_4 (P : Params) :
    viewFile P 3 0 90 = P.output_dir ++ "/puzzle_view_4_e0_a90.png" := by
  unfold viewFile
  simp only [String.append_assoc]
  congr 1

theorem viewFile_5 (P : Params) :
    viewFile P 4 45 45 = P.output_dir ++ "/puzzle_view_5_e45_a45.png" := by
  unfold viewFile
  simp only [String.append_assoc]
  congr 1

theorem renderViews_explicit (P : Params) :
    renderViews P
      = [P.output_dir ++ "/puzzle_view_1_e20_a30.png",
         P.output_dir ++ "/puzzle_view_2_e90_a0.png",
         P.output_dir ++ "/puzzle_view_3_e0_a0.png",
         P.output_dir ++ "/puzzle_view_4_e0_a90.png",
         P.output_dir ++ "/puzzle_view_5_e45_a45.png"] := by
  have e : renderViews P
      = [viewFile P 0 20 30, viewFile P 1 90 0, viewFile P 2 0 0,
         viewFile P 3 0 90, viewFile P 4 45 45] := rfl
  rw [e, viewFile_1, viewFile_2, viewFile_3, viewFile_4, viewFile_5]

theorem colorIdx_all_ok {M : Type} (C : Collab M)
    (h : ∀ m, C.renderOk m = true) (pieces : List M) :
    (colorIndexAssignments C pieces).map Prod.snd
      = (List.range pieces.length).map (fun t => t % max 1 pieces.length) := by
  unfold colorIndexAssignments
  have hfe : (fun p : ℕ × M =>
        if C.renderOk p.2 = true then some (p.2, p.1 % max 1 pieces.length)
        else none)
      = fun p : ℕ × M => some (p.2, p.1 % max 1 pieces.length) := by
    funext p
    rw [h p.2]
    simp
  rw [hfe]
  rw [show (List.filterMap
        (fun p : ℕ × M => some (p.2, p.1 % max 1 pieces.length)) pieces.enum)
      = pieces.enum.map (fun p : ℕ × M => (p.2, p.1 % max 1 pieces.length)) from
      congrFun (List.filterMap_eq_map _) _]
  rw [List.map_map]
  rw [show (Prod.snd ∘ fun p : ℕ × M => (p.2, p.1 % max 1 pieces.length))
      = ((fun t => t % max 1 pieces.length) ∘ Prod.fst) from rfl]
  rw [← List.map_map, List.enum_map_fst]

/-- Claim C9: if `piece_count = 0` the rendering stage is skipped and
`view_image_paths` is empty (not an error); if at least one piece was
exported, exactly five preview paths are returned, one per fixed camera
angle `(20,30),(90,0),(0,0),(0,90),(45,45)` in that order, and (when
every registration succeeds) piece `idx` of the export order is rendered
with palette color `idx % palette size`, the palette having one color
per exported piece. -/
theorem claim_C9_preview_rendering {M : Type} (C : Collab M) (P : Params)
    (streamOfSeed : ℕ → ℕ → ℚ) (g0 : Rng) :
    ((generate_puzzle_from_stl C P streamOfSeed g0).meshInfo.pieceCount = 0 →
        (generate_puzzle_from_stl C P streamOfSeed g0).viewImagePaths = [])
    ∧ (1 ≤ (generate_puzzle_from_stl C P streamOfSeed g0).meshInfo.pieceCount →
        (generate_puzzle_from_stl C P streamOfSeed g0).viewImagePaths
          = [P.output_dir ++ "/puzzle_view_1_e20_a30.png",
             P.output_dir ++ "/puzzle_view_2_e90_a0.png",
             P.output_dir ++ "/puzzle_view_3_e0_a0.png",
             P.output_dir ++ "/puzzle_view_4_e0_a90.png",
             P.output_dir ++ "/puzzle_view_5_e45_a45.png"])
    ∧ ((∀ m, C.renderOk m = true) →
        1 ≤ (generate_puzzle_from_stl C P streamOfSeed g0).meshInfo.pieceCount →
        ((generate_puzzle_from_stl C P streamOfSeed g0).renderedColors).map Prod.snd
          = (List.range
              (generate_puzzle_from_stl C P streamOfSeed g0).meshInfo.pieceCount).map
              (fun t =>
                t % (generate_puzzle_from_stl C P streamOfSeed g0).meshInfo.pieceCount)) := by
  have hinv := runFold_meshes_inv C P streamOfSeed
  refine ⟨?_, ?_, ?_⟩
  · intro h
    have h0 : (runFold C P streamOfSeed).pieceCount = 0 := h
    show (if 0 < (runFold C P streamOfSeed).pieceMeshes.length then renderViews P
        else []) = []
    rw [if_neg (by rw [hinv, h0]; omega)]
  · intro h
    have h1 : 1 ≤ (runFold C P streamOfSeed).pieceCount := h
    show (if 0 < (runFold C P streamOfSeed).pieceMeshes.length then renderViews P
        else []) = _
    rw [if_pos (by rw [hinv]; omega)]
    exact renderViews_explicit P
  · intro hok h
    have h1 : 1 ≤ (runFold C P streamOfSeed).pieceCount := h
    show (if 0 < (runFold C P streamOfSeed).pieceMeshes.length then
          colorIndexAssignments C (runFold C P streamOfSeed).pieceMeshes
        else []).map Prod.snd
        = (List.range (runFold C P streamOfSeed).pieceCount).map
            (fun t => t % (runFold C P streamOfSeed).pieceCount)
    rw [if_pos (by rw [hinv]; omega)]
    rw [colorIdx_all_ok C hok]
    rw [hinv]
    have hmax : max 1 (runFold C P streamOfSeed).pieceCount
        = (runFold C P streamOfSeed).pieceCount := by omega
    rw [hmax]

/-- Witness for claim C9 on a concrete all-successful single-cell run
(one exported piece, five preview paths, color index `0 % 1`). -/
theorem claim_C9_witness :
    (∀ m : ℕ, collabOkNat.renderOk m = true)
    ∧ 1 ≤ (generate_puzzle_from_stl collabOkNat P1 seedStream0 rng0).meshInfo.pieceCount
    ∧ (generate_puzzle_from_stl collabOkNat P1 seedStream0 rng0).viewImagePaths
        = [P1.output_dir ++ "/puzzle_view_1_e20_a30.png",
           P1.output_dir ++ "/puzzle_view_2_e90_a0.png",
           P1.output_dir ++ "/puzzle_view_3_e0_a0.png",
           P1.output_dir ++ "/puzzle_view_4_e0_a90.png",
           P1.output_dir ++ "/puzzle_view_5_e45_a45.png"]
    ∧ ((generate_puzzle_from_stl collabOkNat P1 seedStream0 rng0).renderedColors).map Prod.snd
        = (List.range
            (generate_puzzle_from_stl collabOkNat P1 seedStream0 rng0).meshInfo.pieceCount).map
            (fun t =>
              t % (generate_puzzle_from_stl collabOkNat P1 seedStream0 rng0).meshInfo.pieceCount) :=
  ⟨fun _ => rfl,
   by decide,
   (claim_C9_preview_rendering collabOkNat P1 seedStream0 rng0).2.1 (by decide),
   (claim_C9_preview_rendering collabOkNat P1 seedStream0 rng0).2.2 (fun _ => rfl) (by decide)⟩
